import Mathlib

/-!
Shallow embedding of the AI tutor Streamlit application (`src/app.py`) and
proofs about its behavioural contract.

Modelling conventions:
* Streamlit session state (`st.session_state`, initialised at app.py:59-79)
  becomes the structure `SessionState`; the Firestore document of the single
  modelled user becomes `UserData`; the pair is `World`.
* The user record fields relevant to the verified properties are the integer
  token balance and the stored chat history; the remaining profile fields
  (names, email, password hash, preferences, subject list) do not influence
  any verified property and are omitted.  `learning_preferences` is read at
  app.py:563 into `preferences_str` but that variable is never interpolated
  into the system prompt, so it is not modelled.
* The Firebase and OpenAI initialisation flags (app.py:18-57) are modelled as
  permanently true: all properties concern the fully initialised application.
* External effects (PDF/TXT file reads, the two chat-completion calls) are
  modelled by passing their outcome as an `Option` parameter to the
  operation; `none` is the exception / missing-file case.  The number of
  chat-completion and image calls actually issued is returned explicitly
  (the image call turns out never to be issued, see `generateVisual`).
* `st.stop()` and `st.rerun()` both end the current script run immediately
  (st.rerun by raising a rerun exception); both are modelled by returning
  the state built so far.  Consequently the statements after `st.rerun()`
  at app.py:744 — the image-generation call and its success/failure
  handling at app.py:746-754 — are dead code: no run of the program ever
  reaches them, and they are not part of the model.
* Python truthiness of the `username` and `current_study_subject` strings
  (`None` and `""` are falsy) is modelled by `truthyOptStr`; a loaded
  `user_data` dict is always a non-empty dict, hence always truthy.
* Python list aliasing between `st.session_state.chat_history` and
  `user_data['chat_history']` (they are one object between a login and the
  next subject start) is modelled with value semantics; none of the verified
  properties depends on the aliased window.
-/

namespace MindSpring

/-- Message roles appearing in the chat history (app.py:586, 648, 667, 750). -/
inductive Role where
  | system
  | user
  | assistant
  | image
deriving DecidableEq

/-- One chat-history entry: a role-tagged content string. -/
structure ChatMessage where
  role : Role
  content : String
deriving DecidableEq

/-- The modelled part of a Firestore user document (registration at
app.py:321-336 gives `tokens = 1000` and `chat_history = []`). -/
structure UserData where
  tokens : Int
  chat_history : List ChatMessage
deriving DecidableEq

/-- The page selected by `st.session_state.current_page` (app.py:789-796). -/
inductive Page where
  | login
  | register
  | profile
  | tutor
deriving DecidableEq

/-- The Streamlit session state, fields as initialised at app.py:59-79. -/
structure SessionState where
  logged_in : Bool
  current_page : Page
  username : Option String
  user_data : Option UserData
  chat_history : List ChatMessage
  current_study_subject : Option String
  subject_context_loaded : Bool
  active_syllabus : String
  active_subject_context : String
  generating_image : Bool
deriving DecidableEq

/-- The session-state defaults of app.py:59-79 (a fresh browser session). -/
def initialSession : SessionState :=
  { logged_in := false
    current_page := Page.login
    username := none
    user_data := none
    chat_history := []
    current_study_subject := none
    subject_context_loaded := false
    active_syllabus := ""
    active_subject_context := ""
    generating_image := false }

/-- Session state plus the Firestore document of the modelled user. -/
structure World where
  sess : SessionState
  store : UserData
deriving DecidableEq

/-- Python truthiness of an optional string: `None` and `""` are falsy. -/
def truthyOptStr (o : Option String) : Prop :=
  o ≠ none ∧ o ≠ some ""

instance (o : Option String) : Decidable (truthyOptStr o) := by
  unfold truthyOptStr; infer_instance

/-- `update_user_data` (app.py:111-119): guarded by the truthiness of
`st.session_state.username` and `st.session_state.user_data`; writes the
whole data dict to the store with merge semantics (all modelled fields are
present in the dict, so both modelled store fields are overwritten) and
replaces the session copy. -/
def update_user_data (w : World) (d : UserData) : World :=
  if truthyOptStr w.sess.username ∧ w.sess.user_data ≠ none then
    { sess := { w.sess with user_data := some d }, store := d }
  else w

/-- `save_chat_history` (app.py:121-126): writes the session chat history to
the `chat_history` field of the store, under the same guard. -/
def save_chat_history (w : World) : World :=
  if truthyOptStr w.sess.username ∧ w.sess.user_data ≠ none then
    { w with store := { w.store with chat_history := w.sess.chat_history } }
  else w

/-- The study subjects offered by the tutor-page selectbox (app.py:505-509);
the form can only submit one of these or the placeholder (app.py:516-520). -/
def availableStudySubjects : List String :=
  ["English A", "Mathematics", "Biology", "Integrated Science",
   "Agricultural Science", "Chemistry", "Human and Social Biology",
   "Physics", "Social Studies", "Principles of Business", "Geography"]

/-- The f-string `initial_system_prompt` of app.py:565-583, as a function of
the interpolated values (current subject, grade level, loaded syllabus and
context).  Literal braces of the doubled f-string escapes are the characters
rendered here with `\x7b`/`\x7d` hex escapes.  The Python string is not a
raw string, so its backslash sequences are control characters — `\t` in
`\text` is a TAB and `\r` in `\rightarrow` is a carriage return — and the
same escapes below render the same characters. -/
def initialSystemPrompt (subject grade syllabus ctx : String) : String :=
  "\n                You are an AI tutor specializing in " ++ subject
  ++ ".\n                Your responses should be tailored to the student\x27s preferences and selected subject."
  ++ "\n                Student\x27s Grade Level: " ++ grade
  ++ "\n                "
  ++ "\n                **IMPORTANT INSTRUCTION FOR EQUATIONS:**"
  ++ "\n                Whenever you present a chemical equation, mathematical formula, or any scientific notation, please format it using LaTeX."
  ++ "\n                Use `$$...$$` for block equations (on their own line) and `$...$` for inline equations within text."
  ++ "\n                For chemical symbols within LaTeX, use `\text\x7bSymbol\x7d` to ensure they are rendered as plain text (e.g., `$\text\x7bH\x7d_2\text\x7bO\x7d$` for H2O)."
  ++ "\n                Example: The balanced equation for water formation is $$\text\x7b2H\x7d_2 + \text\x7bO\x7d_2 \rightarrow \text\x7b2H\x7d_2\text\x7bO\x7d$$"
  ++ "\n                ---"
  ++ "\n                Syllabus for " ++ subject ++ ":"
  ++ "\n                " ++ syllabus
  ++ "\n                ---"
  ++ "\n                Additional Context for " ++ subject ++ ":"
  ++ "\n                " ++ ctx
  ++ "\n                ---"
  ++ "\n                Be helpful, patient, and provide clear explanations. Ensure your answers are strictly within the scope of the provided syllabus and context."
  ++ "\n                "

/-- The `initial_tutor_message` greeting of app.py:589. -/
def initialTutorMessage (subject : String) : String :=
  "Hello! Welcome to your " ++ subject
  ++ " study session. I\x27m ready to help you with any questions you have based on the syllabus and context provided. How can I assist you today?"

/-- The tutor-page redirect for an unauthenticated visit (app.py:476-480). -/
def tutorRedirect (w : World) : World :=
  { w with sess := { w.sess with current_page := Page.login } }

/-- What the start-study-session form submission displayed / did. -/
inductive StartMsg where
  | notShown
  | invalidSubject
  | fileError
  | started
deriving DecidableEq

/-- Result of a start-study-session attempt. -/
structure StartOut where
  world : World
  msg : StartMsg
deriving DecidableEq

/-- The `Start Study Session` form handler (app.py:511-593).  `selected` is
the selectbox value (placeholder or one of `availableStudySubjects`),
`grade` the grade-level selectbox value, `sylRes` the outcome of
`read_pdf_text` on the syllabus file and `ctxRes` the outcome of
`read_text_file` on the context file (app.py:129-165, `none` = the file was
missing or unreadable, after which `st.stop()` aborts the run).  Note the
source assigns `st.session_state.current_study_subject` (app.py:531) before
either file is read. -/
def startStudySession (w : World) (selected grade : String)
    (sylRes ctxRes : Option String) : StartOut :=
  if ¬(w.sess.logged_in = true ∧ w.sess.user_data ≠ none) then
    ⟨tutorRedirect w, StartMsg.notShown⟩
  else if truthyOptStr w.sess.current_study_subject ∧ w.sess.subject_context_loaded = true then
    -- the selection form is only rendered when app.py:513 is true
    ⟨w, StartMsg.notShown⟩
  else if ¬(selected = "-- Select a Subject --" ∨ selected ∈ availableStudySubjects) then
    -- the selectbox cannot submit any other value (app.py:516-520)
    ⟨w, StartMsg.notShown⟩
  else if selected = "-- Select a Subject --" then
    ⟨w, StartMsg.invalidSubject⟩
  else
    let sess1 := { w.sess with current_study_subject := some selected }
    match sylRes with
    | none => ⟨{ w with sess := sess1 }, StartMsg.fileError⟩
    | some syl =>
      match ctxRes with
      | none => ⟨{ w with sess := sess1 }, StartMsg.fileError⟩
      | some ctx =>
        let prompt := initialSystemPrompt selected grade syl ctx
        let hist : List ChatMessage :=
          [⟨Role.system, prompt⟩, ⟨Role.assistant, initialTutorMessage selected⟩]
        let sess2 := { sess1 with
          active_syllabus := syl
          active_subject_context := ctx
          subject_context_loaded := true
          chat_history := hist }
        ⟨save_chat_history { w with sess := sess2 }, StartMsg.started⟩

/-- What the send handler displayed / did. -/
inductive SendMsg where
  | notShown
  | noTokens
  | apiError
  | ok
deriving DecidableEq

/-- Result of a send attempt, with the number of chat-completion calls. -/
structure SendOut where
  world : World
  msg : SendMsg
  chatCalls : Nat
deriving DecidableEq

/-- The `Send to Tutor` handler (app.py:638-686).  `userInput` is the text
area value; `apiRes` is the chat-completion outcome (`none` = the call
raised).  The text-to-speech call (app.py:670-672) does not touch any
modelled state. -/
def sendToTutor (w : World) (userInput : String) (apiRes : Option String) : SendOut :=
  if ¬(w.sess.logged_in = true ∧ w.sess.user_data ≠ none) then
    ⟨tutorRedirect w, SendMsg.notShown, 0⟩
  else
    match w.sess.user_data with
    | none => ⟨tutorRedirect w, SendMsg.notShown, 0⟩
    | some d =>
      if ¬(truthyOptStr w.sess.current_study_subject ∧ w.sess.subject_context_loaded = true) then
        -- the chat interface is only rendered in the else-branch of app.py:513
        ⟨w, SendMsg.notShown, 0⟩
      else if userInput = "" then
        -- `if send_button and user_input:` (app.py:638)
        ⟨w, SendMsg.notShown, 0⟩
      else if d.tokens ≤ 0 then
        ⟨w, SendMsg.noTokens, 0⟩
      else
        let d1 : UserData := { d with tokens := d.tokens - 1 }
        let w1 := update_user_data w d1
        let w2 := { w1 with sess := { w1.sess with
          chat_history := w1.sess.chat_history ++ [⟨Role.user, userInput⟩] } }
        let w3 := save_chat_history w2
        match apiRes with
        | some reply =>
          let w4 := { w3 with sess := { w3.sess with
            chat_history := w3.sess.chat_history ++ [⟨Role.assistant, reply⟩] } }
          ⟨save_chat_history w4, SendMsg.ok, 1⟩
        | none =>
          let d2 : UserData := { d1 with tokens := d1.tokens + 1 }
          ⟨update_user_data w3 d2, SendMsg.apiError, 1⟩

/-- The reversed-iteration search for the latest assistant message
(app.py:702-706); returns `""` when no assistant message is found. -/
def lastAssistantMessage (hist : List ChatMessage) : String :=
  match hist.reverse.find? (fun m => decide (m.role = Role.assistant)) with
  | some m => m.content
  | none => ""

/-- What the generate-visual handler displayed / did.  `rerunGenerating`
marks the run that appended the status message and then halted at the
`st.rerun()` of app.py:744. -/
inductive VisualMsg where
  | notShown
  | insufficientTokens
  | noAssistant
  | promptError
  | emptyPrompt
  | rerunGenerating
deriving DecidableEq

/-- Result of a generate-visual attempt, with external-call counts. -/
structure VisualOut where
  world : World
  msg : VisualMsg
  chatCalls : Nat
  imageCalls : Nat
deriving DecidableEq

/-- The `Generate Visual Explanation` handler (app.py:688-756).  `promptRes`
is the outcome of the prompt-condensation chat-completion call
(app.py:719-728).  When that call yields a non-empty prompt, the handler
appends a status message, saves it, and calls `st.rerun()` (app.py:744),
which raises and ends the script run there; the `generate_image` call and
its handling at app.py:746-754 are dead code that no run reaches.
The second `Option String` argument stands for the outcome that unreachable
image call would have had: it is quantified so that every potential external
outcome is covered, and the handler provably never depends on it (no image
call is ever made, `imageCalls` is 0 on every path). -/
def generateVisual (w : World) (promptRes : Option String)
    (_imageRes : Option String) : VisualOut :=
  if ¬(w.sess.logged_in = true ∧ w.sess.user_data ≠ none) then
    ⟨tutorRedirect w, VisualMsg.notShown, 0, 0⟩
  else
    match w.sess.user_data with
    | none => ⟨tutorRedirect w, VisualMsg.notShown, 0, 0⟩
    | some d =>
      if ¬(truthyOptStr w.sess.current_study_subject ∧ w.sess.subject_context_loaded = true) then
        ⟨w, VisualMsg.notShown, 0, 0⟩
      else if d.tokens < 50 then
        ⟨w, VisualMsg.insufficientTokens, 0, 0⟩
      else
        let d1 : UserData := { d with tokens := d.tokens - 50 }
        let w1 := update_user_data w d1
        if lastAssistantMessage w1.sess.chat_history = "" then
          -- app.py:708-710: warning and return, without any refund
          ⟨w1, VisualMsg.noAssistant, 0, 0⟩
        else
          match promptRes with
          | none =>
            let d2 : UserData := { d1 with tokens := d1.tokens + 50 }
            ⟨update_user_data w1 d2, VisualMsg.promptError, 1, 0⟩
          | some p =>
            if p ≠ "" then
              let w2 := { w1 with sess := { w1.sess with
                chat_history := w1.sess.chat_history
                  ++ [⟨Role.assistant, "Generating a visual for: \x27" ++ p ++ "\x27"⟩] } }
              -- app.py:742-744: append the status message, save, st.rerun();
              -- the rerun ends the script run here, before generate_image
              -- (app.py:746-754) and without any refund
              ⟨save_chat_history w2, VisualMsg.rerunGenerating, 1, 0⟩
            else
              -- app.py:755-756: warning only, without any refund
              ⟨w1, VisualMsg.emptyPrompt, 1, 0⟩

/-- The `Change Study Subject` button handler (app.py:599-605); note it does
not call `save_chat_history`. -/
def changeStudySubject (w : World) : World :=
  if ¬(w.sess.logged_in = true ∧ w.sess.user_data ≠ none) then
    tutorRedirect w
  else if truthyOptStr w.sess.current_study_subject ∧ w.sess.subject_context_loaded = true then
    { w with sess := { w.sess with
        current_study_subject := none
        subject_context_loaded := false
        chat_history := [] } }
  else w

/-- A successful login (app.py:255-263): the stored document becomes the
session user data, the stored chat history becomes the session transcript,
and the page switches to the tutor page.  The password check itself is
delegated to bcrypt and not modelled; this operation is the successful
branch. -/
def loginSuccess (w : World) (username : String) : World :=
  { w with sess := { w.sess with
      logged_in := true
      username := some username
      user_data := some w.store
      chat_history := w.store.chat_history
      current_page := Page.tutor } }

/-- The sidebar `Logout` button (app.py:774-780). -/
def logoutClick (w : World) : World :=
  { w with sess := { w.sess with
      logged_in := false
      username := none
      user_data := none
      chat_history := []
      current_page := Page.login } }

/-- The end of a browser session: the next visit re-runs the session-state
initialisation of app.py:59-79 from scratch, while the Firestore document
persists. -/
def newBrowserSession (w : World) : World :=
  { w with sess := initialSession }

/-- A freshly registered user document (app.py:321-336): 1000 tokens and an
empty chat history. -/
def freshUserData : UserData :=
  { tokens := 1000, chat_history := [] }

/-- One user-visible operation of the application. -/
inductive Step : World → World → Prop where
  | doLogin (w : World) (u : String) : Step w (loginSuccess w u)
  | doLogout (w : World) : Step w (logoutClick w)
  | doStart (w : World) (selected grade : String) (sylRes ctxRes : Option String) :
      Step w (startStudySession w selected grade sylRes ctxRes).world
  | doSend (w : World) (userInput : String) (apiRes : Option String) :
      Step w (sendToTutor w userInput apiRes).world
  | doVisual (w : World) (promptRes imageRes : Option String) :
      Step w (generateVisual w promptRes imageRes).world
  | doChangeSubject (w : World) : Step w (changeStudySubject w)
  | doNewSession (w : World) : Step w (newBrowserSession w)

/-- Reachability along application operations. -/
def Reachable (w w' : World) : Prop :=
  Relation.ReflTransGen Step w w'

/-- The world at first visit: fresh session, freshly registered user. -/
def w0 : World :=
  { sess := initialSession, store := freshUserData }

/-- The world right after the fresh user logs in. -/
def wLoggedIn : World :=
  loginSuccess w0 "alice"

/-- The world after a successful study-session start for Mathematics. -/
def wActive : World :=
  (startStudySession wLoggedIn "Mathematics" "High School"
    (some "SYLLABUS TEXT") (some "CONTEXT TEXT")).world

/-- An active session whose transcript holds no assistant message (the
system prompt alone, as stored before the greeting would be appended). -/
def wNoAssistant : World :=
  { wActive with sess := { wActive.sess with
      chat_history := [⟨Role.system, "prompt"⟩] } }

/-- The active Mathematics session with the token balance set to 1 (in the
store and in the session copy of the user record). -/
def wBalance1 : World :=
  { wActive with
    store := { wActive.store with tokens := 1 }
    sess := { wActive.sess with
      user_data := some { tokens := 1, chat_history := [] } } }

/-- The state reached by: login, start Mathematics, logout, browser session
ends, login again in the fresh session. -/
def wBad : World :=
  loginSuccess (newBrowserSession (logoutClick wActive)) "alice"

/-- `hay` contains `needle` as a contiguous substring. -/
def strContains (hay needle : String) : Prop :=
  ∃ pre post, hay = pre ++ (needle ++ post)

/-- The token balances in the store and (when loaded) in the session user
data are non-negative. -/
def TokInv (w : World) : Prop :=
  0 ≤ w.store.tokens ∧ 0 ≤ ((w.sess.user_data.map UserData.tokens).getD 0)

instance (w : World) : Decidable (TokInv w) := by
  unfold TokInv; infer_instance

/-- The transcript invariant claimed by the spec: when the transcript is
non-empty, its first entry is a system message carrying the system prompt of
the currently active subject (for some grade level, with the loaded syllabus
and context). -/
def headIsSystemPrompt (s : SessionState) : Prop :=
  ∀ m rest, s.chat_history = m :: rest →
    ∃ subj, s.current_study_subject = some subj ∧ m.role = Role.system ∧
      ∃ grade, m.content =
        initialSystemPrompt subj grade s.active_syllabus s.active_subject_context

/-- The transcript invariant together with the auxiliary facts needed for it
to be inductive over the tutor-page operations: an unloaded context comes
with an empty transcript, a logged-in session with a loaded context has a
non-empty transcript, and the active subject is one of the offered
subjects. -/
def SessInv (s : SessionState) : Prop :=
  headIsSystemPrompt s ∧
  (s.subject_context_loaded = false → s.chat_history = []) ∧
  (s.logged_in = true → s.subject_context_loaded = true → s.chat_history ≠ []) ∧
  (∀ subj, s.current_study_subject = some subj → subj ∈ availableStudySubjects)

/-! Helper lemmas about the persistence wrappers. -/

@[simp] theorem save_chat_history_sess (w : World) :
    (save_chat_history w).sess = w.sess := by
  unfold save_chat_history; split <;> rfl

@[simp] theorem save_chat_history_store_tokens (w : World) :
    (save_chat_history w).store.tokens = w.store.tokens := by
  unfold save_chat_history; split <;> rfl

@[simp] theorem update_user_data_sess_chat_history (w : World) (d : UserData) :
    (update_user_data w d).sess.chat_history = w.sess.chat_history := by
  unfold update_user_data; split <;> rfl

@[simp] theorem update_user_data_sess_username (w : World) (d : UserData) :
    (update_user_data w d).sess.username = w.sess.username := by
  unfold update_user_data; split <;> rfl

@[simp] theorem update_user_data_sess_subject (w : World) (d : UserData) :
    (update_user_data w d).sess.current_study_subject = w.sess.current_study_subject := by
  unfold update_user_data; split <;> rfl

@[simp] theorem update_user_data_sess_loaded (w : World) (d : UserData) :
    (update_user_data w d).sess.subject_context_loaded = w.sess.subject_context_loaded := by
  unfold update_user_data; split <;> rfl

@[simp] theorem update_user_data_sess_syllabus (w : World) (d : UserData) :
    (update_user_data w d).sess.active_syllabus = w.sess.active_syllabus := by
  unfold update_user_data; split <;> rfl

@[simp] theorem update_user_data_sess_context (w : World) (d : UserData) :
    (update_user_data w d).sess.active_subject_context = w.sess.active_subject_context := by
  unfold update_user_data; split <;> rfl

@[simp] theorem update_user_data_sess_logged_in (w : World) (d : UserData) :
    (update_user_data w d).sess.logged_in = w.sess.logged_in := by
  unfold update_user_data; split <;> rfl

theorem update_user_data_applies (w : World) (d : UserData)
    (hg : truthyOptStr w.sess.username ∧ w.sess.user_data ≠ none) :
    update_user_data w d =
      { sess := { w.sess with user_data := some d }, store := d } := by
  unfold update_user_data; exact if_pos hg

theorem save_chat_history_applies (w : World)
    (hg : truthyOptStr w.sess.username ∧ w.sess.user_data ≠ none) :
    save_chat_history w =
      { w with store := { w.store with chat_history := w.sess.chat_history } } := by
  unfold save_chat_history; exact if_pos hg

/-- C9: the logout handler clears exactly the login flag, the username, the
loaded user data, the transcript mirror and the page, and leaves the study
subject, the loaded syllabus and context text and the loaded flag (and the
store) untouched, so a subsequent login in the same browser session resumes
with the previous subject still active and its context still loaded. -/
theorem logout_frame_and_relogin (w : World) (u : String) :
    (logoutClick w).sess.logged_in = false ∧
    (logoutClick w).sess.username = none ∧
    (logoutClick w).sess.user_data = none ∧
    (logoutClick w).sess.chat_history = [] ∧
    (logoutClick w).sess.current_page = Page.login ∧
    (logoutClick w).sess.current_study_subject = w.sess.current_study_subject ∧
    (logoutClick w).sess.active_syllabus = w.sess.active_syllabus ∧
    (logoutClick w).sess.active_subject_context = w.sess.active_subject_context ∧
    (logoutClick w).sess.subject_context_loaded = w.sess.subject_context_loaded ∧
    (logoutClick w).store = w.store ∧
    (loginSuccess (logoutClick w) u).sess.logged_in = true ∧
    (loginSuccess (logoutClick w) u).sess.current_study_subject = w.sess.current_study_subject ∧
    (loginSuccess (logoutClick w) u).sess.subject_context_loaded = w.sess.subject_context_loaded ∧
    (loginSuccess (logoutClick w) u).sess.active_syllabus = w.sess.active_syllabus ∧
    (loginSuccess (logoutClick w) u).sess.active_subject_context = w.sess.active_subject_context :=
  ⟨rfl, rfl, rfl, rfl, rfl, rfl, rfl, rfl, rfl, rfl, rfl, rfl, rfl, rfl, rfl⟩

/-- C1 (amended): when the syllabus or the context file for the selected
subject is missing or unreadable, the session start aborts with a
user-visible error and every session-state field except the current study
subject is unchanged (transcript, syllabus/context text, loaded flag, login
data), with the store untouched; the current study subject, however, has
already been set to the selected subject before the file reads. -/
theorem startSession_failure_frame (w : World) (selected grade : String)
    (sylRes ctxRes : Option String)
    (hL : w.sess.logged_in = true) (hU : w.sess.user_data ≠ none)
    (hForm : ¬(truthyOptStr w.sess.current_study_subject ∧
      w.sess.subject_context_loaded = true))
    (hSel : selected ∈ availableStudySubjects)
    (hFail : sylRes = none ∨ ctxRes = none) :
    (startStudySession w selected grade sylRes ctxRes).msg = StartMsg.fileError ∧
    (startStudySession w selected grade sylRes ctxRes).world.sess =
      { w.sess with current_study_subject := some selected } ∧
    (startStudySession w selected grade sylRes ctxRes).world.store = w.store := by
  have hph : selected ≠ "-- Select a Subject --" := by
    rintro rfl; revert hSel; decide
  unfold startStudySession
  rw [if_neg (not_not_intro ⟨hL, hU⟩), if_neg hForm,
    if_neg (not_not_intro (Or.inr hSel)), if_neg hph]
  rcases sylRes with _ | syl
  · exact ⟨rfl, rfl, rfl⟩
  · rcases hFail with h | h
    · exact absurd h (by simp)
    · subst h
      exact ⟨rfl, rfl, rfl⟩

/-- C1 witness: the amended theorem applied to the freshly logged-in world
and a missing Mathematics syllabus file. -/
theorem startSession_failure_frame_witness :
    (wLoggedIn.sess.logged_in = true ∧ wLoggedIn.sess.user_data ≠ none ∧
      ¬(truthyOptStr wLoggedIn.sess.current_study_subject ∧
        wLoggedIn.sess.subject_context_loaded = true) ∧
      "Mathematics" ∈ availableStudySubjects) ∧
    ((startStudySession wLoggedIn "Mathematics" "High School" none none).msg =
        StartMsg.fileError ∧
      (startStudySession wLoggedIn "Mathematics" "High School" none none).world.sess =
        { wLoggedIn.sess with current_study_subject := some "Mathematics" } ∧
      (startStudySession wLoggedIn "Mathematics" "High School" none none).world.store =
        wLoggedIn.store) :=
  ⟨⟨by decide, by decide, by decide, by decide⟩,
    startSession_failure_frame wLoggedIn "Mathematics" "High School" none none
      (by decide) (by decide) (by decide) (by decide) (Or.inl rfl)⟩

/-- C1 counterexample: a session-start attempt on a missing syllabus file
does modify session state — the current study subject changes from `none` to
the selected subject, so the state is not left entirely unchanged. -/
theorem startSession_failure_mutates_subject :
    (startStudySession wLoggedIn "Mathematics" "High School" none none).msg =
      StartMsg.fileError ∧
    (startStudySession wLoggedIn "Mathematics" "High School" none none).world.sess.current_study_subject
      ≠ wLoggedIn.sess.current_study_subject := by
  constructor
  · decide
  · decide

/-- C3: when the chat-completion call of a send raises, the token balance
ends exactly at its pre-send value, both in the session user data (the
record is restored to `d` unchanged) and in the persisted store: the
decrement is rolled back by adding 1, net change zero. -/
theorem send_failure_restores_tokens (w : World) (d : UserData) (n u : String)
    (hL : w.sess.logged_in = true) (hU : w.sess.user_data = some d)
    (hN : w.sess.username = some n) (hn : n ≠ "")
    (hChat : truthyOptStr w.sess.current_study_subject ∧
      w.sess.subject_context_loaded = true)
    (hu : u ≠ "") (ht : 0 < d.tokens) :
    (sendToTutor w u none).msg = SendMsg.apiError ∧
    (sendToTutor w u none).world.sess.user_data = some d ∧
    (sendToTutor w u none).world.store.tokens = d.tokens := by
  obtain ⟨t, ch⟩ := d
  have ht' : ¬(t ≤ 0) := by simpa using ht
  have gtr : truthyOptStr w.sess.username := by
    rw [hN]; exact ⟨fun h => Option.noConfusion h, by simpa using hn⟩
  simp [sendToTutor, hU, hL, hu, hChat.1, hChat.2, ht', gtr,
    update_user_data, save_chat_history, sub_add_cancel]

/-- C4: a send with non-empty input, positive balance and a successful
chat-completion call decrements the balance by exactly 1 (in session and
store), appends exactly the user message and then the assistant reply to the
transcript, and issues exactly one chat-completion call. -/
theorem send_success_effects (w : World) (d : UserData) (n u r : String)
    (hL : w.sess.logged_in = true) (hU : w.sess.user_data = some d)
    (hN : w.sess.username = some n) (hn : n ≠ "")
    (hChat : truthyOptStr w.sess.current_study_subject ∧
      w.sess.subject_context_loaded = true)
    (hu : u ≠ "") (ht : 0 < d.tokens) :
    (sendToTutor w u (some r)).msg = SendMsg.ok ∧
    (sendToTutor w u (some r)).chatCalls = 1 ∧
    (sendToTutor w u (some r)).world.sess.chat_history =
      w.sess.chat_history ++ [⟨Role.user, u⟩, ⟨Role.assistant, r⟩] ∧
    (sendToTutor w u (some r)).world.sess.user_data =
      some { d with tokens := d.tokens - 1 } ∧
    (sendToTutor w u (some r)).world.store.tokens = d.tokens - 1 := by
  obtain ⟨t, ch⟩ := d
  have ht' : ¬(t ≤ 0) := by simpa using ht
  have gtr : truthyOptStr w.sess.username := by
    rw [hN]; exact ⟨fun h => Option.noConfusion h, by simpa using hn⟩
  simp [sendToTutor, hU, hL, hu, hChat.1, hChat.2, ht', gtr,
    update_user_data, save_chat_history]

/-- C4 witness: from an active Mathematics session with balance 1 and the
two seeded transcript entries, sending a question ends with balance 0 and a
four-entry transcript. -/
theorem send_success_effects_witness :
    (sendToTutor wBalance1 "What is 2+2?" (some "4")).world.sess.chat_history.length = 4 ∧
    (sendToTutor wBalance1 "What is 2+2?" (some "4")).world.store.tokens = 0 ∧
    (sendToTutor wBalance1 "What is 2+2?" (some "4")).chatCalls = 1 ∧
    wBalance1.sess.chat_history.length = 2 := by
  obtain ⟨-, hcalls, hhist, -, htok⟩ :=
    send_success_effects wBalance1
      { tokens := 1, chat_history := [] } "alice" "What is 2+2?" "4"
      rfl rfl rfl (by decide) (by decide) (by decide) (by decide)
  have hm : "Mathematics" ∈ availableStudySubjects := by decide
  refine ⟨?_, by simpa using htok, hcalls, ?_⟩
  · rw [hhist]
    simp [wBalance1, wActive, wLoggedIn, w0, startStudySession, loginSuccess,
      save_chat_history, initialSession, freshUserData, truthyOptStr, hm]
  · simp [wBalance1, wActive, wLoggedIn, w0, startStudySession, loginSuccess,
      save_chat_history, initialSession, freshUserData, truthyOptStr, hm]

/-- C3 witness: the rollback theorem applied to an active session with
balance 1000 and a failing chat-completion call. -/
theorem send_failure_restores_tokens_witness :
    (sendToTutor wActive "What is 2+2?" none).msg = SendMsg.apiError ∧
    (sendToTutor wActive "What is 2+2?" none).world.sess.user_data =
      some { tokens := 1000, chat_history := [] } ∧
    (sendToTutor wActive "What is 2+2?" none).world.store.tokens = 1000 :=
  send_failure_restores_tokens wActive { tokens := 1000, chat_history := [] }
    "alice" "What is 2+2?" rfl (by decide) rfl (by decide) (by decide)
    (by decide) (by decide)

/-! Substring-containment helpers for the system-prompt shape. -/

theorem strContains_head (needle post : String) :
    strContains (needle ++ post) needle :=
  ⟨"", post, (String.empty_append _).symm⟩

theorem strContains_cons (a : String) {hay needle : String}
    (h : strContains hay needle) : strContains (a ++ hay) needle := by
  obtain ⟨pre, post, rfl⟩ := h
  exact ⟨a ++ pre, post, (String.append_assoc a pre _).symm⟩

/-- C5: a session start whose syllabus and context reads both succeed resets
the transcript, whatever it held before, to exactly the system message (the
source system prompt, which contains the subject, the grade level, the
formatting instructions, the syllabus and the context) followed by the
assistant greeting. -/
theorem startSession_success_seeds_transcript (w : World)
    (selected grade syl ctx : String)
    (hL : w.sess.logged_in = true) (hU : w.sess.user_data ≠ none)
    (hForm : ¬(truthyOptStr w.sess.current_study_subject ∧
      w.sess.subject_context_loaded = true))
    (hSel : selected ∈ availableStudySubjects) :
    (startStudySession w selected grade (some syl) (some ctx)).msg =
      StartMsg.started ∧
    (startStudySession w selected grade (some syl) (some ctx)).world.sess.chat_history =
      [⟨Role.system, initialSystemPrompt selected grade syl ctx⟩,
       ⟨Role.assistant, initialTutorMessage selected⟩] ∧
    strContains (initialSystemPrompt selected grade syl ctx) selected ∧
    strContains (initialSystemPrompt selected grade syl ctx) grade ∧
    strContains (initialSystemPrompt selected grade syl ctx)
      "\n                **IMPORTANT INSTRUCTION FOR EQUATIONS:**" ∧
    strContains (initialSystemPrompt selected grade syl ctx) syl ∧
    strContains (initialSystemPrompt selected grade syl ctx) ctx := by
  have hph : selected ≠ "-- Select a Subject --" := by
    rintro rfl; revert hSel; decide
  refine ⟨?_, ?_, ?_, ?_, ?_, ?_, ?_⟩
  · unfold startStudySession
    rw [if_neg (not_not_intro ⟨hL, hU⟩), if_neg hForm,
      if_neg (not_not_intro (Or.inr hSel)), if_neg hph]
  · unfold startStudySession
    rw [if_neg (not_not_intro ⟨hL, hU⟩), if_neg hForm,
      if_neg (not_not_intro (Or.inr hSel)), if_neg hph]
    simp
  · simp only [initialSystemPrompt, String.append_assoc]
    exact strContains_cons _ (strContains_head _ _)
  · simp only [initialSystemPrompt, String.append_assoc]
    exact strContains_cons _ (strContains_cons _ (strContains_cons _
      (strContains_cons _ (strContains_head _ _))))
  · simp only [initialSystemPrompt, String.append_assoc]
    exact strContains_cons _ (strContains_cons _ (strContains_cons _
      (strContains_cons _ (strContains_cons _ (strContains_cons _
      (strContains_head _ _))))))
  · simp only [initialSystemPrompt, String.append_assoc]
    exact strContains_cons _ (strContains_cons _ (strContains_cons _
      (strContains_cons _ (strContains_cons _ (strContains_cons _
      (strContains_cons _ (strContains_cons _ (strContains_cons _
      (strContains_cons _ (strContains_cons _ (strContains_cons _
      (strContains_cons _ (strContains_cons _ (strContains_cons _
      (strContains_cons _ (strContains_head _ _))))))))))))))))
  · simp only [initialSystemPrompt, String.append_assoc]
    exact strContains_cons _ (strContains_cons _ (strContains_cons _
      (strContains_cons _ (strContains_cons _ (strContains_cons _
      (strContains_cons _ (strContains_cons _ (strContains_cons _
      (strContains_cons _ (strContains_cons _ (strContains_cons _
      (strContains_cons _ (strContains_cons _ (strContains_cons _
      (strContains_cons _ (strContains_cons _ (strContains_cons _
      (strContains_cons _ (strContains_cons _ (strContains_cons _
      (strContains_cons _ (strContains_head _ _))))))))))))))))))))))

/-- C5 witness: the seeding theorem applied to the freshly logged-in world
and a Mathematics session with concrete file contents. -/
theorem startSession_success_seeds_transcript_witness :
    (wLoggedIn.sess.logged_in = true ∧ wLoggedIn.sess.user_data ≠ none ∧
      "Mathematics" ∈ availableStudySubjects) ∧
    (startStudySession wLoggedIn "Mathematics" "High School"
        (some "SYLLABUS TEXT") (some "CONTEXT TEXT")).msg = StartMsg.started ∧
    (startStudySession wLoggedIn "Mathematics" "High School"
        (some "SYLLABUS TEXT") (some "CONTEXT TEXT")).world.sess.chat_history =
      [⟨Role.system,
          initialSystemPrompt "Mathematics" "High School" "SYLLABUS TEXT" "CONTEXT TEXT"⟩,
       ⟨Role.assistant, initialTutorMessage "Mathematics"⟩] := by
  obtain ⟨h1, h2, -⟩ :=
    startSession_success_seeds_transcript wLoggedIn "Mathematics" "High School"
      "SYLLABUS TEXT" "CONTEXT TEXT" rfl (by decide) (by decide) (by decide)
  exact ⟨⟨rfl, by decide, by decide⟩, h1, h2⟩

/-- C2 (amended): an illustration request with balance at least 50 checks
and deducts exactly 50 tokens up front, and the cost is refunded only when
the prompt-condensation chat-completion call fails (net change zero).  When
that call succeeds with a non-empty condensed prompt, the handler appends a
status message, persists it, and the script run halts at `st.rerun()`
before the image-generation call, which is therefore never made on any
path (zero image calls whatever the outcomes); no refund occurs, so the
balance ends exactly 50 lower without any image having been produced. -/
theorem illustration_refund_behavior (w : World) (d : UserData) (n : String)
    (hL : w.sess.logged_in = true) (hU : w.sess.user_data = some d)
    (hN : w.sess.username = some n) (hn : n ≠ "")
    (hChat : truthyOptStr w.sess.current_study_subject ∧
      w.sess.subject_context_loaded = true)
    (ht : 50 ≤ d.tokens)
    (hA : lastAssistantMessage w.sess.chat_history ≠ "") :
    ((generateVisual w none none).msg = VisualMsg.promptError ∧
      (generateVisual w none none).world.sess.user_data = some d ∧
      (generateVisual w none none).world.store.tokens = d.tokens) ∧
    (∀ p imageRes, p ≠ "" →
      (generateVisual w (some p) imageRes).msg = VisualMsg.rerunGenerating ∧
      (generateVisual w (some p) imageRes).world.sess.user_data =
        some { d with tokens := d.tokens - 50 } ∧
      (generateVisual w (some p) imageRes).world.store.tokens = d.tokens - 50 ∧
      (generateVisual w (some p) imageRes).world.sess.chat_history =
        w.sess.chat_history
          ++ [⟨Role.assistant, "Generating a visual for: \x27" ++ p ++ "\x27"⟩]) ∧
    (∀ promptRes imageRes,
      (generateVisual w promptRes imageRes).imageCalls = 0) := by
  obtain ⟨t, ch⟩ := d
  have ht' : ¬(t < 50) := by simpa using ht
  have gtr : truthyOptStr w.sess.username := by
    rw [hN]; exact ⟨fun h => Option.noConfusion h, by simpa using hn⟩
  refine ⟨?_, ?_, ?_⟩
  · simp [generateVisual, hU, hL, hChat.1, hChat.2, ht', gtr,
      update_user_data, save_chat_history]
    simp only [if_neg hA]
    simp [sub_add_cancel]
  · intro p imageRes hp
    simp [generateVisual, hU, hL, hChat.1, hChat.2, ht', gtr, hp,
      update_user_data, save_chat_history]
    simp only [if_neg hA]
    simp
  · intro promptRes imageRes
    simp only [generateVisual, hU]
    rw [if_neg (not_not_intro ⟨hL, fun hc => Option.noConfusion hc⟩),
      if_neg (not_not_intro hChat), if_neg (by simpa using ht')]
    rcases promptRes with _ | p
    · split <;> rfl
    · dsimp only
      split
      · rfl
      · split <;> rfl

/-- C2 witness: the amended theorem applied to the active Mathematics
session (balance 1000): a failed prompt-condensation call nets zero, while
a successful one ends the run at `st.rerun()` with the balance at 950 and
no image call made. -/
theorem illustration_refund_behavior_witness :
    (50 ≤ (1000 : Int) ∧ lastAssistantMessage wActive.sess.chat_history ≠ "") ∧
    ((generateVisual wActive none none).world.store.tokens = 1000 ∧
      (generateVisual wActive (some "a diagram") none).world.store.tokens = 950 ∧
      (generateVisual wActive (some "a diagram") none).imageCalls = 0) := by
  obtain ⟨⟨-, -, h1⟩, h2, h3⟩ :=
    illustration_refund_behavior wActive { tokens := 1000, chat_history := [] }
      "alice" rfl (by decide) rfl (by decide) (by decide) (by decide)
      (by decide)
  exact ⟨⟨by decide, by decide⟩, h1, (h2 "a diagram" none (by decide)).2.2.1,
    h3 (some "a diagram") none⟩

/-- C2 counterexample: in the active Mathematics session with balance 1000,
an illustration request whose prompt-condensation call returns "a diagram"
deducts 50 tokens, appends only the assistant status message (no image
entry), and halts at `st.rerun()` without making the image-generation call;
the request thus ends without an image and with the balance at 950, not at
its pre-request value — the claimed refund of every failed illustration
does not happen. -/
theorem illustration_rerun_keeps_deduction :
    (generateVisual wActive (some "a diagram") none).msg =
      VisualMsg.rerunGenerating ∧
    (generateVisual wActive (some "a diagram") none).imageCalls = 0 ∧
    ((generateVisual wActive (some "a diagram") none).world.sess.chat_history.all
      (fun m => decide (m.role ≠ Role.image))) = true ∧
    (generateVisual wActive (some "a diagram") none).world.store.tokens ≠
      wActive.store.tokens ∧
    (generateVisual wActive (some "a diagram") none).world.store.tokens =
      wActive.store.tokens - 50 := by
  refine ⟨by decide, by decide, by decide, by decide, by decide⟩

/-- C10: an illustration request with balance at least 50 whose transcript
holds no assistant message deducts the 50 tokens and persists the deduction
before the missing-message check, then returns with only a warning, makes no
chat-completion and no image call, leaves the transcript unchanged, and
never refunds: the balance ends exactly 50 lower. -/
theorem illustration_without_assistant_charges (w : World) (d : UserData)
    (n : String) (promptRes imageRes : Option String)
    (hL : w.sess.logged_in = true) (hU : w.sess.user_data = some d)
    (hN : w.sess.username = some n) (hn : n ≠ "")
    (hChat : truthyOptStr w.sess.current_study_subject ∧
      w.sess.subject_context_loaded = true)
    (ht : 50 ≤ d.tokens)
    (hNoA : ∀ m ∈ w.sess.chat_history, m.role ≠ Role.assistant) :
    (generateVisual w promptRes imageRes).msg = VisualMsg.noAssistant ∧
    (generateVisual w promptRes imageRes).chatCalls = 0 ∧
    (generateVisual w promptRes imageRes).imageCalls = 0 ∧
    (generateVisual w promptRes imageRes).world.sess.chat_history =
      w.sess.chat_history ∧
    (generateVisual w promptRes imageRes).world.sess.user_data =
      some { d with tokens := d.tokens - 50 } ∧
    (generateVisual w promptRes imageRes).world.store.tokens = d.tokens - 50 := by
  obtain ⟨t, ch⟩ := d
  have ht' : ¬(t < 50) := by simpa using ht
  have gtr : truthyOptStr w.sess.username := by
    rw [hN]; exact ⟨fun h => Option.noConfusion h, by simpa using hn⟩
  have hA : lastAssistantMessage w.sess.chat_history = "" := by
    unfold lastAssistantMessage
    rw [List.find?_eq_none.mpr]
    intro m hm
    simpa using hNoA m (List.mem_reverse.mp hm)
  simp [generateVisual, hU, hL, hChat.1, hChat.2, ht', gtr,
    update_user_data, save_chat_history]
  simp only [if_pos hA]
  simp

/-- C10 witness: the theorem applied to the active session whose transcript
is a lone system message: the balance drops from 1000 to 950 and stays
there. -/
theorem illustration_without_assistant_charges_witness :
    ((∀ m ∈ wNoAssistant.sess.chat_history, m.role ≠ Role.assistant) ∧
      50 ≤ (1000 : Int)) ∧
    ((generateVisual wNoAssistant (some "p") (some "url")).msg =
        VisualMsg.noAssistant ∧
      (generateVisual wNoAssistant (some "p") (some "url")).chatCalls = 0 ∧
      (generateVisual wNoAssistant (some "p") (some "url")).imageCalls = 0 ∧
      (generateVisual wNoAssistant (some "p") (some "url")).world.store.tokens = 950) := by
  obtain ⟨h1, h2, h3, -, -, h4⟩ :=
    illustration_without_assistant_charges wNoAssistant
      { tokens := 1000, chat_history := [] } "alice" (some "p") (some "url")
      rfl (by decide) rfl (by decide) (by decide) (by decide) (by decide)
  exact ⟨⟨by decide, by decide⟩, h1, h2, h3, by simpa using h4⟩

/-- C8 (amended): a change-subject action in the active state clears the
session transcript, the current study subject and the context-loaded flag
(returning the engine to the no-subject state) and changes nothing else — in
particular the transcript stored in the user record is left exactly as it
was, not cleared. -/
theorem changeSubject_clears_session_state (w : World)
    (hL : w.sess.logged_in = true) (hU : w.sess.user_data ≠ none)
    (hChat : truthyOptStr w.sess.current_study_subject ∧
      w.sess.subject_context_loaded = true) :
    changeStudySubject w =
      { w with sess := { w.sess with
          current_study_subject := none
          subject_context_loaded := false
          chat_history := [] } } := by
  unfold changeStudySubject
  rw [if_neg (not_not_intro ⟨hL, hU⟩), if_pos hChat]

/-- C8 witness: the amended theorem applied to the active Mathematics
session. -/
theorem changeSubject_clears_session_state_witness :
    (wActive.sess.logged_in = true ∧ wActive.sess.user_data ≠ none ∧
      (truthyOptStr wActive.sess.current_study_subject ∧
        wActive.sess.subject_context_loaded = true)) ∧
    changeStudySubject wActive =
      { wActive with sess := { wActive.sess with
          current_study_subject := none
          subject_context_loaded := false
          chat_history := [] } } :=
  ⟨⟨rfl, by decide, by decide⟩,
    changeSubject_clears_session_state wActive rfl (by decide) (by decide)⟩

/-- C8 counterexample: after a change-subject action in the active
Mathematics session the transcript stored in the user record is still the
two seeded messages, not empty, even though the session transcript is
cleared. -/
theorem changeSubject_keeps_stored_transcript :
    (changeStudySubject wActive).sess.chat_history = [] ∧
    (changeStudySubject wActive).store.chat_history ≠ [] ∧
    (changeStudySubject wActive).store.chat_history.length = 2 := by
  refine ⟨by decide, by decide, by decide⟩

/-! Preservation of non-negative balances, operation by operation. -/

theorem tokInv_update (w : World) (d : UserData) (h : TokInv w)
    (hd : 0 ≤ d.tokens) : TokInv (update_user_data w d) := by
  unfold update_user_data
  split
  · exact ⟨hd, by simpa using hd⟩
  · exact h

theorem tokInv_save (w : World) (h : TokInv w) : TokInv (save_chat_history w) := by
  unfold save_chat_history
  split
  · exact ⟨h.1, h.2⟩
  · exact h

theorem tokInv_login (w : World) (u : String) (h : TokInv w) :
    TokInv (loginSuccess w u) := by
  exact ⟨h.1, by simpa [loginSuccess, TokInv] using h.1⟩

theorem tokInv_logout (w : World) (h : TokInv w) : TokInv (logoutClick w) :=
  ⟨h.1, by simp [logoutClick, TokInv]⟩

theorem tokInv_newSession (w : World) (h : TokInv w) :
    TokInv (newBrowserSession w) :=
  ⟨h.1, by simp [newBrowserSession, TokInv, initialSession]⟩

theorem tokInv_change (w : World) (h : TokInv w) :
    TokInv (changeStudySubject w) := by
  unfold changeStudySubject
  split
  · exact h
  · split
    · exact ⟨h.1, h.2⟩
    · exact h

theorem tokInv_start (w : World) (selected grade : String)
    (sylRes ctxRes : Option String) (h : TokInv w) :
    TokInv (startStudySession w selected grade sylRes ctxRes).world := by
  unfold startStudySession
  split
  · exact h
  split
  · exact h
  split
  · exact h
  split
  · exact h
  rcases sylRes with _ | syl
  · exact ⟨h.1, h.2⟩
  rcases ctxRes with _ | ctx
  · exact ⟨h.1, h.2⟩
  exact tokInv_save _ ⟨h.1, h.2⟩

theorem tokInv_send (w : World) (u : String) (apiRes : Option String)
    (h : TokInv w) : TokInv (sendToTutor w u apiRes).world := by
  unfold sendToTutor
  split
  · exact h
  split
  · exact h
  rename_i d heq
  split
  · exact h
  split
  · exact h
  split
  · exact h
  rename_i hcond hgood htok
  have hd1 : (0 : Int) ≤ d.tokens - 1 := by omega
  have hd2 : (0 : Int) ≤ d.tokens - 1 + 1 := by omega
  rcases apiRes with _ | reply
  · exact tokInv_update _ _ (tokInv_save _ (tokInv_update w _ h hd1)) hd2
  · exact tokInv_save _ (tokInv_save _ (tokInv_update w _ h hd1))

theorem tokInv_visual (w : World) (promptRes imageRes : Option String)
    (h : TokInv w) : TokInv (generateVisual w promptRes imageRes).world := by
  unfold generateVisual
  split
  · exact h
  split
  · exact h
  rename_i d heq
  split
  · exact h
  split
  · exact h
  rename_i hcond hgood htok
  have hd1 : (0 : Int) ≤ d.tokens - 50 := by omega
  have hd2 : (0 : Int) ≤ d.tokens - 50 + 50 := by omega
  simp only [update_user_data_sess_chat_history]
  by_cases hlm : lastAssistantMessage w.sess.chat_history = ""
  · rw [if_pos hlm]
    refine tokInv_update w _ h ?_
    exact hd1
  · rw [if_neg hlm]
    rcases promptRes with _ | p
    · refine tokInv_update _ _ (tokInv_update w _ h hd1) ?_
      exact hd2
    · dsimp only
      rcases eq_or_ne p "" with hp | hp
      · rw [if_neg (not_not_intro hp)]
        refine tokInv_update w _ h ?_
        exact hd1
      · rw [if_pos hp]
        exact tokInv_save _ (tokInv_update w _ h hd1)

/-- C6: from any state with non-negative balances, no application operation
(login, logout, session start, send, illustration, subject change, new
browser session) ever makes the token balance negative: send fires only with
balance above 0 and deducts 1, illustration fires only with balance at least
50 and deducts 50, and failures refund, so non-negativity is an invariant of
every step. -/
theorem token_balance_never_negative (w w' : World) (hInv : TokInv w)
    (hStep : Step w w') : TokInv w' := by
  cases hStep with
  | doLogin u => exact tokInv_login w u hInv
  | doLogout => exact tokInv_logout w hInv
  | doStart selected grade sylRes ctxRes =>
      exact tokInv_start w selected grade sylRes ctxRes hInv
  | doSend userInput apiRes => exact tokInv_send w userInput apiRes hInv
  | doVisual promptRes imageRes =>
      exact tokInv_visual w promptRes imageRes hInv
  | doChangeSubject => exact tokInv_change w hInv
  | doNewSession => exact tokInv_newSession w hInv

/-- C6 witness: the invariant theorem applied to the initial world and the
login step. -/
theorem token_balance_never_negative_witness :
    TokInv w0 ∧ TokInv (loginSuccess w0 "alice") :=
  ⟨by decide,
    token_balance_never_negative w0 (loginSuccess w0 "alice") (by decide)
      (Step.doLogin w0 "alice")⟩

/-! Preservation of the transcript-head invariant by the non-login
operations. -/

theorem sessInv_of_fields_eq {s s' : SessionState} (h : SessInv s)
    (h1 : s'.chat_history = s.chat_history)
    (h2 : s'.current_study_subject = s.current_study_subject)
    (h3 : s'.active_syllabus = s.active_syllabus)
    (h4 : s'.active_subject_context = s.active_subject_context)
    (h5 : s'.subject_context_loaded = s.subject_context_loaded)
    (h6 : s'.logged_in = s.logged_in) : SessInv s' := by
  obtain ⟨ha, hb, hc, hd⟩ := h
  refine ⟨?_, ?_, ?_, ?_⟩
  · intro m rest hm
    rw [h1] at hm
    obtain ⟨subj, hs, hr, g, hg⟩ := ha m rest hm
    refine ⟨subj, ?_, hr, g, ?_⟩
    · rw [h2]; exact hs
    · rw [h3, h4]; exact hg
  · intro hl
    rw [h1]
    exact hb (by rw [← h5]; exact hl)
  · intro hl hld
    rw [h1]
    exact hc (by rw [← h6]; exact hl) (by rw [← h5]; exact hld)
  · intro subj hs
    exact hd subj (by rw [← h2]; exact hs)

theorem sessInv_form_not_loaded (s : SessionState) (h : SessInv s)
    (hL : s.logged_in = true)
    (hForm : ¬(truthyOptStr s.current_study_subject ∧
      s.subject_context_loaded = true)) :
    s.subject_context_loaded = false ∧ s.chat_history = [] := by
  cases hld : s.subject_context_loaded with
  | false => exact ⟨rfl, h.2.1 hld⟩
  | true =>
    exfalso
    have hne := h.2.2.1 hL hld
    obtain ⟨m, rest, hm⟩ : ∃ m rest, s.chat_history = m :: rest := by
      cases hh : s.chat_history with
      | nil => exact absurd hh hne
      | cons a b => exact ⟨a, b, rfl⟩
    obtain ⟨subj, hs, -, -⟩ := h.1 m rest hm
    have hmem := h.2.2.2 subj hs
    have hnempty : subj ≠ "" := by rintro rfl; revert hmem; decide
    refine hForm ⟨⟨?_, ?_⟩, hld⟩
    · rw [hs]; exact fun hc => Option.noConfusion hc
    · rw [hs]; simpa using hnempty

theorem sessInv_subject_set (s : SessionState) (selected : String)
    (hempty : s.chat_history = []) (hnl : s.subject_context_loaded = false)
    (hmem : selected ∈ availableStudySubjects) :
    SessInv { s with current_study_subject := some selected } := by
  refine ⟨?_, ?_, ?_, ?_⟩
  · intro m rest hm
    have hm' : s.chat_history = m :: rest := hm
    rw [hempty] at hm'
    exact absurd hm' (by simp)
  · intro _
    exact hempty
  · intro hl hld
    have hld' : s.subject_context_loaded = true := hld
    rw [hnl] at hld'
    exact absurd hld' (by simp)
  · intro subj hs
    have hs' : some selected = some subj := hs
    exact (Option.some.inj hs') ▸ hmem

theorem sessInv_seeded (s : SessionState) (selected grade syl ctx : String)
    (hmem : selected ∈ availableStudySubjects) :
    SessInv { s with
      current_study_subject := some selected
      active_syllabus := syl
      active_subject_context := ctx
      subject_context_loaded := true
      chat_history := [⟨Role.system, initialSystemPrompt selected grade syl ctx⟩,
        ⟨Role.assistant, initialTutorMessage selected⟩] } := by
  refine ⟨?_, by simp, by simp, ?_⟩
  · intro m rest hm
    have hm' : ([⟨Role.system, initialSystemPrompt selected grade syl ctx⟩,
        ⟨Role.assistant, initialTutorMessage selected⟩] : List ChatMessage) =
          m :: rest := hm
    obtain ⟨h1, -⟩ := List.cons.inj hm'
    exact ⟨selected, rfl, by rw [← h1], grade, by rw [← h1]⟩
  · intro subj hs
    have hs' : some selected = some subj := hs
    exact (Option.some.inj hs') ▸ hmem

theorem sessInv_append (s : SessionState) (h : SessInv s)
    (hL : s.logged_in = true) (hld : s.subject_context_loaded = true)
    (suffix : List ChatMessage) :
    SessInv { s with chat_history := s.chat_history ++ suffix } := by
  have hne : s.chat_history ≠ [] := h.2.2.1 hL hld
  obtain ⟨m, rest, hm⟩ : ∃ m rest, s.chat_history = m :: rest := by
    cases hh : s.chat_history with
    | nil => exact absurd hh hne
    | cons a b => exact ⟨a, b, rfl⟩
  refine ⟨?_, ?_, ?_, ?_⟩
  · intro m2 rest2 hm2
    have hm2' : s.chat_history ++ suffix = m2 :: rest2 := hm2
    rw [hm, List.cons_append] at hm2'
    obtain ⟨h1, -⟩ := List.cons.inj hm2'
    obtain ⟨subj, hs, hr, g, hg⟩ := h.1 m rest hm
    exact ⟨subj, hs, by rw [← h1]; exact hr, g, by rw [← h1]; exact hg⟩
  · intro hld2
    have hld2' : s.subject_context_loaded = false := hld2
    rw [hld] at hld2'
    exact absurd hld2' (by simp)
  · intro _ _
    intro hc
    have hc' : s.chat_history ++ suffix = [] := hc
    rw [hm] at hc'
    exact absurd hc' (by simp)
  · intro subj hs
    exact h.2.2.2 subj hs

theorem sessInv_initialSession : SessInv initialSession := by
  refine ⟨?_, fun _ => rfl, ?_, ?_⟩
  · intro m rest hm
    exact absurd hm (by simp [initialSession])
  · intro hl
    exact absurd hl (by simp [initialSession])
  · intro subj hs
    exact absurd hs (by simp [initialSession])

theorem sessInv_start (w : World) (selected grade : String)
    (sylRes ctxRes : Option String) (h : SessInv w.sess) :
    SessInv (startStudySession w selected grade sylRes ctxRes).world.sess := by
  unfold startStudySession
  split
  · exact sessInv_of_fields_eq h rfl rfl rfl rfl rfl rfl
  split
  · exact h
  split
  · exact h
  split
  · exact h
  rename_i hguard hform hallowed hph
  have hL : w.sess.logged_in = true := (not_not.mp hguard).1
  obtain ⟨hnl, hempty⟩ := sessInv_form_not_loaded w.sess h hL hform
  have hmem : selected ∈ availableStudySubjects := by
    rcases not_not.mp hallowed with hp | hmm2
    · exact absurd hp hph
    · exact hmm2
  rcases sylRes with _ | syl
  · exact sessInv_subject_set w.sess selected hempty hnl hmem
  rcases ctxRes with _ | ctx
  · exact sessInv_subject_set w.sess selected hempty hnl hmem
  rw [save_chat_history_sess]
  exact sessInv_seeded w.sess selected grade syl ctx hmem

theorem sessInv_send (w : World) (u : String) (apiRes : Option String)
    (h : SessInv w.sess) : SessInv (sendToTutor w u apiRes).world.sess := by
  unfold sendToTutor
  split
  · exact sessInv_of_fields_eq h rfl rfl rfl rfl rfl rfl
  split
  · exact sessInv_of_fields_eq h rfl rfl rfl rfl rfl rfl
  rename_i d heq
  split
  · exact h
  split
  · exact h
  split
  · exact h
  rename_i hguard hscrut hchat hne htok
  have hchat' := not_not.mp hchat
  have hL : w.sess.logged_in = true := (not_not.mp hguard).1
  rcases apiRes with _ | reply
  · refine sessInv_of_fields_eq
      (sessInv_append w.sess h hL hchat'.2 [⟨Role.user, u⟩])
      (by simp) (by simp) (by simp) (by simp) (by simp) (by simp)
  · refine sessInv_of_fields_eq
      (sessInv_append w.sess h hL hchat'.2
        [⟨Role.user, u⟩, ⟨Role.assistant, reply⟩])
      (by simp) (by simp) (by simp) (by simp) (by simp) (by simp)

theorem sessInv_visual (w : World) (promptRes imageRes : Option String)
    (h : SessInv w.sess) : SessInv (generateVisual w promptRes imageRes).world.sess := by
  unfold generateVisual
  split
  · exact sessInv_of_fields_eq h rfl rfl rfl rfl rfl rfl
  split
  · exact sessInv_of_fields_eq h rfl rfl rfl rfl rfl rfl
  rename_i d heq
  split
  · exact h
  split
  · exact h
  rename_i hguard hscrut hchat htok
  have hchat' := not_not.mp hchat
  have hL : w.sess.logged_in = true := (not_not.mp hguard).1
  simp only [update_user_data_sess_chat_history]
  by_cases hlm : lastAssistantMessage w.sess.chat_history = ""
  · rw [if_pos hlm]
    exact sessInv_of_fields_eq h (by simp) (by simp) (by simp) (by simp)
      (by simp) (by simp)
  · rw [if_neg hlm]
    rcases promptRes with _ | p
    · dsimp only
      exact sessInv_of_fields_eq h (by simp) (by simp) (by simp) (by simp)
        (by simp) (by simp)
    · dsimp only
      rcases eq_or_ne p "" with hp | hp
      · rw [if_neg (not_not_intro hp)]
        exact sessInv_of_fields_eq h (by simp) (by simp) (by simp) (by simp)
          (by simp) (by simp)
      · rw [if_pos hp]
        refine sessInv_of_fields_eq
          (sessInv_append w.sess h hL hchat'.2
            [⟨Role.assistant, "Generating a visual for: \x27" ++ p ++ "\x27"⟩])
          (by simp) (by simp) (by simp) (by simp) (by simp) (by simp)

theorem sessInv_change (w : World) (h : SessInv w.sess) :
    SessInv (changeStudySubject w).sess := by
  unfold changeStudySubject
  split
  · exact sessInv_of_fields_eq h rfl rfl rfl rfl rfl rfl
  split
  · refine ⟨?_, fun _ => rfl, ?_, ?_⟩
    · intro m rest hm
      exact absurd hm (by simp)
    · intro _ hld
      exact absurd hld (by simp)
    · intro subj hs
      exact absurd hs (by simp)
  · exact h

theorem sessInv_logout (w : World) (h : SessInv w.sess) :
    SessInv (logoutClick w).sess := by
  refine ⟨?_, fun _ => rfl, ?_, ?_⟩
  · intro m rest hm
    exact absurd hm (by simp [logoutClick])
  · intro hl
    exact absurd hl (by simp [logoutClick])
  · intro subj hs
    exact h.2.2.2 subj hs

/-- C7 (amended): the transcript-head invariant — a non-empty transcript
starts with the system prompt of the currently active subject — holds
initially and is preserved by session start, send, illustration, subject
change, logout and a fresh browser session (in the inductive form `SessInv`
which adds three auxiliary clauses), but not by login: login loads the
stored transcript while leaving the current subject unchanged, so it is the
one operation missing from the preserved set. -/
theorem transcript_head_invariant_nonlogin (w : World) (h : SessInv w.sess) :
    SessInv initialSession ∧
    (∀ selected grade sylRes ctxRes,
      SessInv (startStudySession w selected grade sylRes ctxRes).world.sess) ∧
    (∀ u apiRes, SessInv (sendToTutor w u apiRes).world.sess) ∧
    (∀ promptRes imageRes,
      SessInv (generateVisual w promptRes imageRes).world.sess) ∧
    SessInv (changeStudySubject w).sess ∧
    SessInv (logoutClick w).sess ∧
    SessInv (newBrowserSession w).sess :=
  ⟨sessInv_initialSession,
   fun selected grade sylRes ctxRes =>
     sessInv_start w selected grade sylRes ctxRes h,
   fun u apiRes => sessInv_send w u apiRes h,
   fun promptRes imageRes => sessInv_visual w promptRes imageRes h,
   sessInv_change w h,
   sessInv_logout w h,
   sessInv_initialSession⟩

/-- C7 witness: the preservation theorem applied to the initial world. -/
theorem transcript_head_invariant_nonlogin_witness :
    SessInv w0.sess ∧ SessInv (logoutClick w0).sess :=
  ⟨sessInv_initialSession,
    (transcript_head_invariant_nonlogin w0 sessInv_initialSession).2.2.2.2.2.1⟩

/-- C7 counterexample: the state reached by login, session start for
Mathematics, logout, end of the browser session, and a second login is
reachable, has a non-empty transcript (the stored one), and violates the
claimed invariant: no subject is active, so the first transcript entry is
not the system prompt of the currently active subject. -/
theorem login_breaks_transcript_head_invariant :
    Reachable w0 wBad ∧ wBad.sess.chat_history ≠ [] ∧
    ¬ headIsSystemPrompt wBad.sess := by
  refine ⟨?_, ?_, ?_⟩
  · have s1 : Step w0 wLoggedIn := Step.doLogin w0 "alice"
    have s2 : Step wLoggedIn wActive :=
      Step.doStart wLoggedIn "Mathematics" "High School"
        (some "SYLLABUS TEXT") (some "CONTEXT TEXT")
    have s3 : Step wActive (logoutClick wActive) := Step.doLogout wActive
    have s4 : Step (logoutClick wActive) (newBrowserSession (logoutClick wActive)) :=
      Step.doNewSession (logoutClick wActive)
    have s5 : Step (newBrowserSession (logoutClick wActive)) wBad :=
      Step.doLogin (newBrowserSession (logoutClick wActive)) "alice"
    exact Relation.ReflTransGen.tail
      (Relation.ReflTransGen.tail
        (Relation.ReflTransGen.tail
          (Relation.ReflTransGen.tail
            (Relation.ReflTransGen.tail Relation.ReflTransGen.refl s1) s2) s3) s4) s5
  · decide
  · intro hbad
    obtain ⟨subj, hs, -, -⟩ := hbad _ _ rfl
    have hnone : wBad.sess.current_study_subject = none := rfl
    rw [hnone] at hs
    exact Option.noConfusion hs

end MindSpring
